import Mathlib

/-!
Shallow embedding of torch/csrc/distributed/c10d/ucc/UCXUtils.cpp: a
point-to-point, tag-matched, asynchronous messaging layer over the UCX
transport. The wrapper-level functions (getUCSMemoryType, the parameter
blocks built by the context constructor and by submit_p2p_request, the
result classification in submit_p2p_request, recv_with_tag, send_with_tag,
the endpoint destructor's drain loop, getUCPContext, UCPWorker::address)
are translated from the source. The native UCX calls they make (ucp_*)
and the declarations that live in UCXUtils.hpp (which is not under src/)
are modelled from the specification, as noted on each such definition.
-/

namespace UCXModel

/-- Native status codes (ucs_status_t): UCS_OK, UCS_INPROGRESS, or an
error code. -/
inductive UcsStatus where
  | ok
  | inprogress
  | err (code : Nat)
  deriving DecidableEq

/-- Native status-pointer values (ucs_status_ptr_t): NULL encodes the OK
status, a reserved range of values encodes error statuses, and anything
else is a genuine request pointer (modelled as a handle). -/
inductive UcsStatusPtr where
  | statusOk
  | statusErr (code : Nat)
  | reqPtr (h : Nat)
  deriving DecidableEq

/-- UCS_PTR_IS_ERR: the value encodes an error status. -/
def UCS_PTR_IS_ERR : UcsStatusPtr → Bool
  | .statusErr _ => true
  | _ => false

/-- UCS_PTR_IS_PTR: the value is a genuine request pointer. -/
def UCS_PTR_IS_PTR : UcsStatusPtr → Bool
  | .reqPtr _ => true
  | _ => false

/-- Test UCS_PTR_STATUS(p) == UCS_OK as used on line 125: true exactly for
the NULL value, since a genuine pointer or an error encoding never equals
the OK status. -/
def ucsPtrStatusIsOk : UcsStatusPtr → Bool
  | .statusOk => true
  | _ => false

/-- The c10 device kinds the switch in getUCSMemoryType distinguishes;
every remaining c10::DeviceType falls to the default branch, collapsed
here into `other`. -/
inductive DeviceType where
  | kCPU
  | kCUDA
  | kHIP
  | other
  deriving DecidableEq

/-- Native memory kinds (ucs_memory_type). -/
inductive UcsMemoryType where
  | host
  | cuda
  | rocm
  | unknown
  deriving DecidableEq

/-- getUCSMemoryType (lines 93-104): map a device kind to the native
memory kind of a buffer residing on it. -/
def getUCSMemoryType : DeviceType → UcsMemoryType
  | .kCPU => .host
  | .kCUDA => .cuda
  | .kHIP => .rocm
  | _ => .unknown

/-- UCPRequest::Data (declared in UCXUtils.hpp; modelled from the spec):
the per-request extra state reserved by the native allocator, holding the
completion flag. -/
structure ReqData where
  completed : Bool
  deriving DecidableEq

/-- Parameter block built by the UCPContext constructor (lines 14-36). -/
structure ContextParams where
  features_tag : Bool
  request_init : ReqData → ReqData
  request_cleanup : ReqData → ReqData

/-- UCPContext::UCPContext (lines 24-32): requests tag-matching, registers
a per-request initializer that clears the completion flag to false, and a
no-op cleanup hook. -/
def contextParams : ContextParams :=
  { features_tag := true
    request_init := fun _ => { completed := false }
    request_cleanup := fun r => r }

/-- Completion callback installed by submit_p2p_request (lines 117-123):
sets the request's completion flag to true, ignoring the native status
argument. -/
def completion_cb : UcsStatus → ReqData → ReqData :=
  fun _ r => { r with completed := true }

/-- ucp_request_param_t as filled in by submit_p2p_request (lines 112-123):
callback notification, a contiguous datatype carrying the transfer size,
and the memory kind of the buffer. -/
structure RequestParams where
  datatype : Nat
  memory_type : UcsMemoryType
  cb : UcsStatus → ReqData → ReqData

/-- Parameter-block construction inside submit_p2p_request
(lines 112-123). -/
def build_params (size : Nat) (device : DeviceType) : RequestParams :=
  { datatype := size
    memory_type := getUCSMemoryType device
    cb := completion_cb }

/-- A tag receive posted to the worker's matching engine. Tags and the
tag mask are modelled as the native unsigned tag bit patterns
(ucp_tag_t); the mask selects which tag bits must agree for a send to
match this receive. -/
structure PostedRecv where
  tag : Nat
  mask : Nat
  size : Nat
  handle : Nat
  mem : UcsMemoryType

/-- An in-flight tag send addressed to the worker. -/
structure PostedSend where
  tag : Nat
  data : List Nat
  handle : Nat
  mem : UcsMemoryType

/-- Modelled from the spec: the state of one worker's native communication
domain: per-request extra state indexed by handle, the queue of posted
receives, the queue of in-flight sends addressed to this worker, the bytes
delivered into each receive (keyed by the receive's request handle), and a
fresh-handle counter. -/
structure NativeState where
  reqs : Nat → ReqData
  recvQ : List PostedRecv
  sendQ : List PostedSend
  delivered : Nat → Option (List Nat)
  nextHandle : Nat

/-- A worker domain with nothing posted and no request state. -/
def initNative : NativeState :=
  { reqs := fun _ => { completed := false }
    recvQ := []
    sendQ := []
    delivered := fun _ => none
    nextHandle := 0 }

/-- Run the installed completion callback on the request state at a
handle. -/
def setCompleted (f : Nat → ReqData) (h : Nat) : Nat → ReqData :=
  fun i => if i = h then completion_cb UcsStatus.ok (f i) else f i

/-- Find and remove the first in-flight send matching a posted receive:
per the native tag-matching rule, a send matches when its tag agrees with
the receive's tag on the bits selected by the receive's tag mask (so a
zero mask compares no bits and matches any tag). -/
def takeSend (tag mask : Nat) : List PostedSend → Option (PostedSend × List PostedSend)
  | [] => none
  | s :: rest =>
    if s.tag &&& mask = tag &&& mask then some (s, rest)
    else
      match takeSend tag mask rest with
      | some (m, rest2) => some (m, s :: rest2)
      | none => none

/-- Modelled from the spec: one matching attempt of the native progress
engine. Scan posted receives in order; complete the first one for which an
in-flight send matches under the receive's tag mask, delivering the send's
bytes into the receive and running the installed completion callback on
both requests' extra state. -/
def progressGo (st : NativeState) (seen : List PostedRecv) :
    List PostedRecv → NativeState
  | [] => st
  | r :: rest =>
    match takeSend r.tag r.mask st.sendQ with
    | some (s, remaining) =>
      { reqs := setCompleted (setCompleted st.reqs r.handle) s.handle
        recvQ := seen.reverse ++ rest
        sendQ := remaining
        delivered := fun i => if i = r.handle then some s.data else st.delivered i
        nextHandle := st.nextHandle }
    | none => progressGo st (r :: seen) rest

/-- UCPWorker::progress (ucp_worker_progress; modelled from the spec):
drive the native event/completion loop one step. -/
def progress (st : NativeState) : NativeState :=
  progressGo st [] st.recvQ

/-- Iterated progress calls. -/
def progressN : Nat → NativeState → NativeState
  | 0, st => st
  | k + 1, st => progressN k (progress st)

/-- UCPRequest (declared in UCXUtils.hpp; modelled from the spec): stores
the native request pointer, or none when the operation completed
synchronously at submission time (line 126 passes nullptr). -/
structure UCPRequest where
  data : Option UcsStatusPtr
  deriving DecidableEq

/-- Modelled from the spec (UCXUtils.hpp is not under src/): reading the
Request's completion flag. With no native handle the operation completed
synchronously, so the flag reads true; through a genuine pointer it reads
the native request's completed field; an error-encoding value wrapped as a
pointer never reads complete (in C++ this dereference is undefined
behavior). -/
def UCPRequest.is_completed (st : NativeState) : UCPRequest → Bool
  | { data := none } => true
  | { data := some (.reqPtr h) } => (st.reqs h).completed
  | { data := some _ } => false

/-- UCPWorker::submit_p2p_request (lines 106-131): build the parameter
block, run the supplied native operation, and classify the result: the OK
status means the operation already finished (wrap nullptr); otherwise
drive one progress step and wrap the returned value as-is. The third
component counts the progress steps driven. -/
def submit_p2p_request (size : Nat) (device : DeviceType)
    (work : RequestParams → NativeState → UcsStatusPtr × NativeState)
    (st : NativeState) : UCPRequest × NativeState × Nat :=
  let r := work (build_params size device) st
  if ucsPtrStatusIsOk r.1 then ({ data := none }, r.2, 0)
  else ({ data := some r.1 }, progress r.2, 1)

/-- Modelled from the spec: ucp_tag_recv_nbx. Allocates a native request
whose extra state is initialized by the registered request_init, posts a
tag receive carrying the given tag and tag mask, with size and memory kind
taken from the parameter block, and returns the pending request pointer. -/
def ucp_tag_recv_nbx (params : RequestParams) (tag : Nat) (tagMask : Nat)
    (st : NativeState) : UcsStatusPtr × NativeState :=
  (UcsStatusPtr.reqPtr st.nextHandle,
   { reqs := fun i =>
       if i = st.nextHandle then contextParams.request_init (st.reqs i) else st.reqs i
     recvQ := st.recvQ ++
       [{ tag := tag, mask := tagMask, size := params.datatype,
          handle := st.nextHandle, mem := params.memory_type }]
     sendQ := st.sendQ
     delivered := st.delivered
     nextHandle := st.nextHandle + 1 })

/-- Modelled from the spec: ucp_tag_send_nbx. Allocates a native request
whose extra state is initialized by the registered request_init, puts the
send (the caller's buffer contents, its tag and memory kind) in flight,
and returns the pending request pointer. -/
def ucp_tag_send_nbx (params : RequestParams) (data : List Nat) (tag : Nat)
    (st : NativeState) : UcsStatusPtr × NativeState :=
  (UcsStatusPtr.reqPtr st.nextHandle,
   { reqs := fun i =>
       if i = st.nextHandle then contextParams.request_init (st.reqs i) else st.reqs i
     recvQ := st.recvQ
     sendQ := st.sendQ ++
       [{ tag := tag, data := data, handle := st.nextHandle,
          mem := params.memory_type }]
     delivered := st.delivered
     nextHandle := st.nextHandle + 1 })

/-- UCPWorker::recv_with_tag (lines 133-139): submit a non-blocking
tag-matched receive through the shared submission path. Line 137 passes
the literal 0 as the native call's tag_mask argument, so the posted
receive compares no tag bits and is a wildcard matching a send of any
tag. -/
def recv_with_tag (size : Nat) (tag : Nat) (device : DeviceType)
    (st : NativeState) : UCPRequest × NativeState × Nat :=
  submit_p2p_request size device (fun params s => ucp_tag_recv_nbx params tag 0 s) st

/-- UCPEndpoint::send_with_tag (lines 141-145): delegate to the owning
worker's shared submission path with a send bound to this endpoint.
`data` is the contents of the caller's buffer. -/
def send_with_tag (data : List Nat) (size : Nat) (tag : Nat)
    (device : DeviceType) (st : NativeState) : UCPRequest × NativeState × Nat :=
  submit_p2p_request size device (fun params s => ucp_tag_send_nbx params data tag s) st

/-- The destructor's do/while drain (lines 85-88): each iteration calls
the worker's progress then checks the close request's status
(ucp_request_check_status); the loop exits at the first check reading
UCS_OK. `statusAt i` is the status observed by the i-th check; the result
is the index of the exiting check, or none if the loop does not exit
within the given fuel. -/
def drainLoop (statusAt : Nat → UcsStatus) : Nat → Nat → Option Nat
  | 0, _ => none
  | fuel + 1, i =>
    if statusAt i = UcsStatus.ok then some i else drainLoop statusAt fuel (i + 1)

/-- Observable outcome of running the endpoint destructor: how many
warnings were reported, how many progress calls were made, and whether the
native close request was freed. -/
structure DtorResult where
  warnings : Nat
  progressCalls : Nat
  freed : Bool
  deriving DecidableEq

/-- UCPEndpoint::~UCPEndpoint (lines 76-91): issue the non-blocking
close-with-flush (its result is the input `closeResult`); if the result
encodes an error, report one warning and do nothing further (the
destructor never throws, so the model always returns a result rather than
raising); if it is a genuine pointer, drain with progress/status checks
until UCS_OK, then free the close request. Returns none only when the
drain does not exit within the given fuel. -/
def ucpEndpointDtor (closeResult : UcsStatusPtr) (statusAt : Nat → UcsStatus)
    (fuel : Nat) : Option DtorResult :=
  let warnings := if UCS_PTR_IS_ERR closeResult then 1 else 0
  if UCS_PTR_IS_PTR closeResult then
    match drainLoop statusAt fuel 0 with
    | some k => some { warnings := warnings, progressCalls := k + 1, freed := true }
    | none => none
  else
    some { warnings := warnings, progressCalls := 0, freed := false }

/-- Modelled from the spec: process state for the function-local static in
getUCPContext: whether the singleton wrapper exists, and how many native
context constructions (ucp_init) and cleanups (ucp_cleanup) have run. -/
structure ProcessState where
  ctx : Option Nat
  initCount : Nat
  cleanupCount : Nat
  deriving DecidableEq

/-- Process state before any call. -/
def initialProcess : ProcessState :=
  { ctx := none, initCount := 0, cleanupCount := 0 }

/-- getUCPContext (lines 38-41), modelled from the spec: the function-local
static gives thread-safe exactly-once construction, so each call is atomic;
the first call constructs the wrapper (running ucp_init once) and every
call returns the same native context handle. -/
def getUCPContext (s : ProcessState) : Nat × ProcessState :=
  match s.ctx with
  | some c => (c, s)
  | none =>
    (s.initCount,
     { ctx := some s.initCount
       initCount := s.initCount + 1
       cleanupCount := s.cleanupCount })

/-- Modelled from the spec: static destruction at process exit runs
UCPContext::~UCPContext (line 10), which calls ucp_cleanup, once, and only
if the wrapper was constructed. -/
def processTeardown (s : ProcessState) : ProcessState :=
  match s.ctx with
  | some _ =>
    { ctx := none, initCount := s.initCount, cleanupCount := s.cleanupCount + 1 }
  | none => s

/-- Run n successive getUCPContext calls, keeping the final state. -/
def getN : Nat → ProcessState → ProcessState
  | 0, s => s
  | n + 1, s => getN n (getUCPContext s).2

/-- Modelled from the spec: outcome of ucp_worker_get_address: the
native-owned address buffer with its length, or a failure status code. -/
inductive AddressQuery where
  | ok (buf : List Nat)
  | err (code : Nat)

/-- Observable outcome of UCPWorker::address: the returned owned bytes or
the raised transport error (carrying the native status code), and whether
ucp_worker_release_address was called on the native-owned buffer. -/
structure AddressResult where
  result : Except Nat (List Nat)
  releasedNativeBuffer : Bool

/-- Byte-by-byte copy of the native buffer into an owned sequence (the
std::vector range constructor at lines 57-59). -/
def copyBytes : List Nat → List Nat
  | [] => []
  | b :: rest => b :: copyBytes rest

/-- UCPWorker::address (lines 51-62): query the native address; on failure
TORCH_UCX_CHECK raises a transport error before anything else happens (so
the native buffer is not released on that path); on success, copy the
bytes into an owned sequence, release the native-owned buffer, and return
the copy. -/
def address (query : AddressQuery) : AddressResult :=
  match query with
  | .err code => { result := Except.error code, releasedNativeBuffer := false }
  | .ok buf => { result := Except.ok (copyBytes buf), releasedNativeBuffer := true }

/-- Status trace whose close request completes successfully at the third
check. -/
def statusOkAt2 : Nat → UcsStatus :=
  fun i => if i = 2 then UcsStatus.ok else UcsStatus.inprogress

/-- Status trace whose close request settles in a terminal error after two
pending checks. -/
def statusStuckErr : Nat → UcsStatus :=
  fun i => if i < 2 then UcsStatus.inprogress else UcsStatus.err 5

/-- A worker domain in which the request state at every handle is already
marked complete. -/
def stAllCompleted : NativeState :=
  { reqs := fun _ => { completed := true }
    recvQ := []
    sendQ := []
    delivered := fun _ => none
    nextHandle := 0 }

/-- The installed callback only ever raises the completion flag, so
setCompleted preserves an already-true flag at every handle. -/
theorem setCompleted_mono (f : Nat → ReqData) (g i : Nat)
    (hc : (f i).completed = true) : (setCompleted f g i).completed = true := by
  unfold setCompleted
  by_cases h : i = g
  · simp [h, completion_cb]
  · simp [h, hc]

/-- One matching attempt never lowers a completion flag. -/
theorem progressGo_reqs_mono (rest : List PostedRecv) (st : NativeState)
    (seen : List PostedRecv) (i : Nat) (hc : (st.reqs i).completed = true) :
    ((progressGo st seen rest).reqs i).completed = true := by
  induction rest generalizing seen with
  | nil => simpa [progressGo] using hc
  | cons r rest ih =>
    simp only [progressGo]
    cases htake : takeSend r.tag r.mask st.sendQ with
    | none => exact ih _
    | some p => exact setCompleted_mono _ _ _ (setCompleted_mono _ _ _ hc)

/-- One progress step never lowers a completion flag. -/
theorem progress_reqs_mono (st : NativeState) (i : Nat)
    (hc : (st.reqs i).completed = true) :
    ((progress st).reqs i).completed = true :=
  progressGo_reqs_mono st.recvQ st [] i hc

/-- Any number of progress steps never lowers a completion flag. -/
theorem progressN_reqs_mono (k : Nat) (st : NativeState) (i : Nat)
    (hc : (st.reqs i).completed = true) :
    ((progressN k st).reqs i).completed = true := by
  induction k generalizing st with
  | zero => simpa [progressN] using hc
  | succ k ih =>
    simp only [progressN]
    exact ih (progress st) (progress_reqs_mono st i hc)

/-- A progress step on a domain with no posted receive changes nothing. -/
theorem progress_recvQ_nil (st : NativeState) (h : st.recvQ = []) :
    progress st = st := by
  simp [progress, h, progressGo]

/-- Iterating progress from a fixpoint stays at the fixpoint. -/
theorem progressN_fix (st : NativeState) (h : progress st = st) (k : Nat) :
    progressN k st = st := by
  induction k with
  | zero => rfl
  | succ k ih => simp only [progressN, h, ih]

/-- If the drain loop exits, the status at the exiting check is UCS_OK. -/
theorem drainLoop_some_ok (statusAt : Nat → UcsStatus) (fuel : Nat) :
    ∀ i k, drainLoop statusAt fuel i = some k → statusAt k = UcsStatus.ok := by
  induction fuel with
  | zero =>
    intro i k h
    simp [drainLoop] at h
  | succ fuel ih =>
    intro i k h
    simp only [drainLoop] at h
    by_cases hs : statusAt i = UcsStatus.ok
    · rw [if_pos hs] at h
      injection h with h2
      subst h2
      exact hs
    · rw [if_neg hs] at h
      exact ih _ _ h

/-- Every check made before the exiting one read something other than
UCS_OK (the loop really spins until the first UCS_OK). -/
theorem drainLoop_not_ok_before (statusAt : Nat → UcsStatus) (fuel : Nat) :
    ∀ i k, drainLoop statusAt fuel i = some k →
      ∀ j, i ≤ j → j < k → statusAt j ≠ UcsStatus.ok := by
  induction fuel with
  | zero =>
    intro i k h
    simp [drainLoop] at h
  | succ fuel ih =>
    intro i k h j hij hjk
    simp only [drainLoop] at h
    by_cases hs : statusAt i = UcsStatus.ok
    · rw [if_pos hs] at h
      injection h with h2
      subst h2
      exact absurd hjk (Nat.not_lt.mpr hij)
    · rw [if_neg hs] at h
      rcases Nat.eq_or_lt_of_le hij with rfl | hlt
      · exact hs
      · exact ih _ _ h j hlt hjk

/-- If no check ever reads UCS_OK, the drain loop never exits, whatever
the fuel. -/
theorem drainLoop_none_of_never (statusAt : Nat → UcsStatus)
    (h : ∀ i, statusAt i ≠ UcsStatus.ok) (fuel : Nat) :
    ∀ i, drainLoop statusAt fuel i = none := by
  induction fuel with
  | zero => intro i; rfl
  | succ fuel ih =>
    intro i
    simp only [drainLoop, if_neg (h i)]
    exact ih (i + 1)

/-- The byte-by-byte copy reproduces the native buffer exactly. -/
theorem copyBytes_eq (l : List Nat) : copyBytes l = l := by
  induction l with
  | nil => rfl
  | cons b rest ih => simp [copyBytes, ih]

/-- Once the singleton is constructed, further getUCPContext calls leave
the process state unchanged. -/
theorem getN_stable (n : Nat) :
    getN n { ctx := some 0, initCount := 1, cleanupCount := 0 } =
      { ctx := some 0, initCount := 1, cleanupCount := 0 } := by
  induction n with
  | zero => rfl
  | succ n ih => simpa [getN, getUCPContext] using ih

/-- After at least one call, the process state is exactly: singleton
constructed, one native init, no cleanup yet. -/
theorem getN_of_pos (n : Nat) (h : 1 ≤ n) :
    getN n initialProcess =
      { ctx := some 0, initCount := 1, cleanupCount := 0 } := by
  cases n with
  | zero => exact absurd h (by decide)
  | succ n =>
    simpa [getN, initialProcess, getUCPContext] using getN_stable n

/-- C5: every Request's completion flag is initialized to false by the
per-request initializer registered at context construction, the installed
completion callback only ever writes true, and once a flag is true no
number of further progress calls reverts it to false. -/
theorem completion_flag_lifecycle :
    (∀ r : ReqData, (contextParams.request_init r).completed = false) ∧
    (∀ (s : UcsStatus) (r : ReqData), (completion_cb s r).completed = true) ∧
    (∀ (st : NativeState) (i k : Nat), (st.reqs i).completed = true →
      ((progressN k st).reqs i).completed = true) :=
  ⟨fun _ => rfl, fun _ _ => rfl,
   fun st i k hc => progressN_reqs_mono k st i hc⟩

/-- Witness for C5 at a concrete state whose flag at handle 0 is true. -/
theorem completion_flag_lifecycle_witness :
    (stAllCompleted.reqs 0).completed = true ∧
    ((progressN 3 stAllCompleted).reqs 0).completed = true :=
  ⟨rfl, completion_flag_lifecycle.2.2 stAllCompleted 0 3 rfl⟩

/-- C6: any positive number of getUCPContext calls runs exactly one native
context construction, on the first call, every call returns the same
handle, and process teardown runs exactly one native cleanup. -/
theorem context_singleton (n : Nat) (h : 1 ≤ n) :
    (getN n initialProcess).initCount = 1 ∧
    (getN 0 initialProcess).initCount = 0 ∧
    (getUCPContext (getN n initialProcess)).1 = (getUCPContext initialProcess).1 ∧
    (processTeardown (getN n initialProcess)).cleanupCount = 1 := by
  rw [getN_of_pos n h]
  exact ⟨rfl, rfl, rfl, rfl⟩

/-- Witness for C6 at two calls. -/
theorem context_singleton_witness :
    (getN 2 initialProcess).initCount = 1 ∧
    (getN 0 initialProcess).initCount = 0 ∧
    (getUCPContext (getN 2 initialProcess)).1 = (getUCPContext initialProcess).1 ∧
    (processTeardown (getN 2 initialProcess)).cleanupCount = 1 :=
  context_singleton 2 (by decide)

/-- C7: every submission's parameter block carries the memory kind derived
from the device kind: host for CPU, the CUDA kind for CUDA, the ROCm kind
for HIP; and the posted native operation records exactly that memory
kind. -/
theorem memory_type_tagging (size : Nat) (d : DeviceType) (tag : Nat)
    (data : List Nat) (st : NativeState) :
    (build_params size d).memory_type = getUCSMemoryType d ∧
    (build_params size DeviceType.kCPU).memory_type = UcsMemoryType.host ∧
    (build_params size DeviceType.kCUDA).memory_type = UcsMemoryType.cuda ∧
    (build_params size DeviceType.kHIP).memory_type = UcsMemoryType.rocm ∧
    (ucp_tag_recv_nbx (build_params size d) tag 0 st).2.recvQ =
      st.recvQ ++
        [{ tag := tag, mask := 0, size := size, handle := st.nextHandle,
           mem := getUCSMemoryType d }] ∧
    (ucp_tag_send_nbx (build_params size d) data tag st).2.sendQ =
      st.sendQ ++
        [{ tag := tag, data := data, handle := st.nextHandle,
           mem := getUCSMemoryType d }] :=
  ⟨rfl, rfl, rfl, rfl, rfl, rfl⟩

/-- C9: the completion callback installed by the submission path sets the
flag unconditionally, ignoring the native status argument, so an operation
completing with a failure status is observed exactly as a success. -/
theorem completion_callback_ignores_status (size : Nat) (d : DeviceType)
    (s : UcsStatus) (c : Nat) (r : ReqData) :
    (build_params size d).cb = completion_cb ∧
    (completion_cb s r).completed = true ∧
    completion_cb (UcsStatus.err c) r = completion_cb UcsStatus.ok r :=
  ⟨rfl, rfl, rfl⟩

/-- C10: the destructor's drain loop exits only at a check that reads the
exact status UCS_OK; if the close request settles in any terminal error
status the loop never exits, whatever the fuel. -/
theorem close_drain_requires_ok :
    (∀ (statusAt : Nat → UcsStatus) (fuel i k : Nat),
      drainLoop statusAt fuel i = some k → statusAt k = UcsStatus.ok) ∧
    (∀ (statusAt : Nat → UcsStatus) (n c : Nat),
      (∀ i, statusAt i = if i < n then UcsStatus.inprogress else UcsStatus.err c) →
      ∀ fuel i, drainLoop statusAt fuel i = none) := by
  constructor
  · exact fun statusAt fuel i k h => drainLoop_some_ok statusAt fuel i k h
  · intro statusAt n c hset fuel i
    apply drainLoop_none_of_never
    intro j
    rw [hset j]
    by_cases hj : j < n <;> simp [hj]

/-- Witness for C10: a trace reaching UCS_OK at the third check exits
there; a trace settling in a terminal error never exits. -/
theorem close_drain_requires_ok_witness :
    drainLoop statusOkAt2 9 0 = some 2 ∧
    statusOkAt2 2 = UcsStatus.ok ∧
    drainLoop statusStuckErr 9 0 = none :=
  ⟨rfl, close_drain_requires_ok.1 statusOkAt2 9 0 2 rfl,
   close_drain_requires_ok.2 statusStuckErr 2 5 (fun _ => rfl) 9 0⟩

/-- C4: endpoint teardown: an immediate close error yields exactly one
warning, zero progress calls, and a normal return (the destructor never
throws; the model always returns a result on this branch); a pending close
is drained by repeated progress calls and status checks, exiting at the
first UCS_OK, after which the close request is freed; and no execution
reports more than one warning. -/
theorem endpoint_dtor_protocol :
    (∀ (statusAt : Nat → UcsStatus) (fuel code : Nat),
      ucpEndpointDtor (UcsStatusPtr.statusErr code) statusAt fuel =
        some { warnings := 1, progressCalls := 0, freed := false }) ∧
    (∀ (statusAt : Nat → UcsStatus) (fuel h k : Nat),
      drainLoop statusAt fuel 0 = some k →
        ucpEndpointDtor (UcsStatusPtr.reqPtr h) statusAt fuel =
          some { warnings := 0, progressCalls := k + 1, freed := true } ∧
        statusAt k = UcsStatus.ok ∧
        (∀ j, j < k → statusAt j ≠ UcsStatus.ok)) ∧
    (∀ (res : UcsStatusPtr) (statusAt : Nat → UcsStatus) (fuel : Nat)
        (r : DtorResult),
      ucpEndpointDtor res statusAt fuel = some r → r.warnings ≤ 1) := by
  refine ⟨fun statusAt fuel code => rfl, fun statusAt fuel h k hdl => ?_, ?_⟩
  · refine ⟨?_, drainLoop_some_ok statusAt fuel 0 k hdl,
      fun j hj =>
        drainLoop_not_ok_before statusAt fuel 0 k hdl j (Nat.zero_le j) hj⟩
    simp [ucpEndpointDtor, UCS_PTR_IS_PTR, UCS_PTR_IS_ERR, hdl]
  · intro res statusAt fuel r hr
    cases res with
    | statusOk =>
      have hres : r = { warnings := 0, progressCalls := 0, freed := false } := by
        simpa [ucpEndpointDtor, UCS_PTR_IS_PTR, UCS_PTR_IS_ERR] using hr.symm
      rw [hres]
      exact Nat.zero_le 1
    | statusErr c =>
      have hres : r = { warnings := 1, progressCalls := 0, freed := false } := by
        simpa [ucpEndpointDtor, UCS_PTR_IS_PTR, UCS_PTR_IS_ERR] using hr.symm
      rw [hres]
    | reqPtr h =>
      cases hdl : drainLoop statusAt fuel 0 with
      | none =>
        rw [ucpEndpointDtor] at hr
        simp [UCS_PTR_IS_PTR, UCS_PTR_IS_ERR, hdl] at hr
      | some k =>
        have hres : r = { warnings := 0, progressCalls := k + 1, freed := true } := by
          simpa [ucpEndpointDtor, UCS_PTR_IS_PTR, UCS_PTR_IS_ERR, hdl] using hr.symm
        rw [hres]
        exact Nat.zero_le 1

/-- Witness for C4: the error branch, a drained pending close exiting at
the third check, and the at-most-one-warning bound at that outcome. -/
theorem endpoint_dtor_protocol_witness :
    drainLoop statusOkAt2 9 0 = some 2 ∧
    ucpEndpointDtor (UcsStatusPtr.statusErr 7) statusOkAt2 9 =
      some { warnings := 1, progressCalls := 0, freed := false } ∧
    ucpEndpointDtor (UcsStatusPtr.reqPtr 0) statusOkAt2 9 =
      some { warnings := 0, progressCalls := 3, freed := true } ∧
    ({ warnings := 0, progressCalls := 3, freed := true } : DtorResult).warnings ≤ 1 :=
  ⟨rfl,
   endpoint_dtor_protocol.1 statusOkAt2 9 7,
   (endpoint_dtor_protocol.2.1 statusOkAt2 9 0 2 rfl).1,
   endpoint_dtor_protocol.2.2 (UcsStatusPtr.reqPtr 0) statusOkAt2 9 _
     (endpoint_dtor_protocol.2.1 statusOkAt2 9 0 2 rfl).1⟩

/-- C8: on a successful native query the worker returns an owned copy
equal to the native address bytes (in particular non-empty whenever the
native address is) and releases the native-owned buffer; on a failed query
it raises a transport error, before any buffer was released. -/
theorem worker_address_correct (buf : List Nat) (code : Nat)
    (hne : buf ≠ []) :
    (address (AddressQuery.ok buf)).result = Except.ok buf ∧
    (address (AddressQuery.ok buf)).releasedNativeBuffer = true ∧
    (address (AddressQuery.ok buf)).result ≠ Except.ok ([] : List Nat) ∧
    (address (AddressQuery.err code)).result = Except.error code ∧
    (address (AddressQuery.err code)).releasedNativeBuffer = false := by
  refine ⟨?_, rfl, ?_, rfl, rfl⟩
  · simp [address, copyBytes_eq]
  · simpa [address, copyBytes_eq] using hne

/-- Witness for C8 at a concrete two-byte native address. -/
theorem worker_address_correct_witness :
    (address (AddressQuery.ok [1, 2])).result = Except.ok [1, 2] ∧
    (address (AddressQuery.ok [1, 2])).releasedNativeBuffer = true ∧
    (address (AddressQuery.ok [1, 2])).result ≠ Except.ok ([] : List Nat) ∧
    (address (AddressQuery.err 4)).result = Except.error 4 ∧
    (address (AddressQuery.err 4)).releasedNativeBuffer = false :=
  worker_address_correct [1, 2] 4 (by decide)

/-- C2 counterexample: with a matching send already in flight, the single
progress step driven inside the submission path completes the just-posted
receive, so the pointer-wrapping branch returns a Request whose completion
flag already reads true at return, refuting the claim that the wrapped
Request's completion flag is false. -/
theorem submit_pending_flag_counterexample :
    (recv_with_tag 1 5 DeviceType.kCPU
        (send_with_tag [9] 1 5 DeviceType.kCPU initNative).2.1).1.data =
      some (UcsStatusPtr.reqPtr 1) ∧
    (recv_with_tag 1 5 DeviceType.kCPU
        (send_with_tag [9] 1 5 DeviceType.kCPU initNative).2.1).1.is_completed
      (recv_with_tag 1 5 DeviceType.kCPU
        (send_with_tag [9] 1 5 DeviceType.kCPU initNative).2.1).2.1 = true :=
  ⟨rfl, rfl⟩

/-- C2 (amended): when the native operation reports the OK status the
submission path returns a Request with no native handle, reading complete,
and drives no progress step; otherwise it drives exactly one progress step
and wraps the returned value as-is, writing nothing into the completion
flag itself (the flag is the native request's field, initialized false and
possibly already set true by the driven progress step). -/
theorem submit_p2p_classification (size : Nat) (d : DeviceType)
    (work : RequestParams → NativeState → UcsStatusPtr × NativeState)
    (st : NativeState) :
    (ucsPtrStatusIsOk (work (build_params size d) st).1 = true →
      submit_p2p_request size d work st =
        ({ data := none }, (work (build_params size d) st).2, 0)) ∧
    UCPRequest.is_completed st { data := none } = true ∧
    (ucsPtrStatusIsOk (work (build_params size d) st).1 = false →
      submit_p2p_request size d work st =
        ({ data := some (work (build_params size d) st).1 },
         progress (work (build_params size d) st).2, 1)) := by
  refine ⟨fun h => ?_, rfl, fun h => ?_⟩
  · simp [submit_p2p_request, h]
  · simp [submit_p2p_request, h]

/-- Witness for C2: an immediately-OK operation and a pending operation,
each classified per the respective branch. -/
theorem submit_p2p_classification_witness :
    submit_p2p_request 1 DeviceType.kCPU (fun _ s => (UcsStatusPtr.statusOk, s))
        initNative = ({ data := none }, initNative, 0) ∧
    submit_p2p_request 1 DeviceType.kCPU (fun _ s => (UcsStatusPtr.reqPtr 0, s))
        initNative =
      ({ data := some (UcsStatusPtr.reqPtr 0) }, progress initNative, 1) :=
  ⟨(submit_p2p_classification 1 DeviceType.kCPU
      (fun _ s => (UcsStatusPtr.statusOk, s)) initNative).1 rfl,
   (submit_p2p_classification 1 DeviceType.kCPU
      (fun _ s => (UcsStatusPtr.reqPtr 0, s)) initNative).2.2 rfl⟩

/-- C3 counterexample: a submission whose native operation reports a hard
error status (code 3 here) is silently treated as a pending request: the
error-encoding value is wrapped as a Request holding a native handle, the
usual single progress step of the pending branch is driven, and the
Request reads not-complete like any pending one — no error classification
happens, refuting the claim. -/
theorem submit_error_status_counterexample :
    (submit_p2p_request 1 DeviceType.kCPU
        (fun _ s => (UcsStatusPtr.statusErr 3, s)) initNative).1.data =
      some (UcsStatusPtr.statusErr 3) ∧
    (submit_p2p_request 1 DeviceType.kCPU
        (fun _ s => (UcsStatusPtr.statusErr 3, s)) initNative).2.2 = 1 ∧
    UCPRequest.is_completed
      (submit_p2p_request 1 DeviceType.kCPU
        (fun _ s => (UcsStatusPtr.statusErr 3, s)) initNative).2.1
      { data := some (UcsStatusPtr.statusErr 3) } = false :=
  ⟨rfl, rfl, rfl⟩

/-- C3 (amended): the code does not distinguish a hard native error status
at submission time: it flows through the same branch as a pending request,
driving one progress step and wrapping the error-encoding value as a
Request that never reads complete in any state. -/
theorem submit_error_not_distinguished (size : Nat) (d : DeviceType)
    (work : RequestParams → NativeState → UcsStatusPtr × NativeState)
    (st : NativeState) (code : Nat)
    (hw : (work (build_params size d) st).1 = UcsStatusPtr.statusErr code) :
    submit_p2p_request size d work st =
      ({ data := some (UcsStatusPtr.statusErr code) },
       progress (work (build_params size d) st).2, 1) ∧
    (∀ st2 : NativeState,
      UCPRequest.is_completed st2 { data := some (UcsStatusPtr.statusErr code) } =
        false) := by
  constructor
  · simp [submit_p2p_request, hw, ucsPtrStatusIsOk]
  · intro st2
    rfl

/-- Witness for C3 at a concrete error-returning operation. -/
theorem submit_error_not_distinguished_witness :
    submit_p2p_request 1 DeviceType.kCPU
        (fun _ s => (UcsStatusPtr.statusErr 3, s)) initNative =
      ({ data := some (UcsStatusPtr.statusErr 3) }, progress initNative, 1) ∧
    UCPRequest.is_completed initNative
      { data := some (UcsStatusPtr.statusErr 3) } = false :=
  ⟨(submit_error_not_distinguished 1 DeviceType.kCPU
      (fun _ s => (UcsStatusPtr.statusErr 3, s)) initNative 3 rfl).1,
   (submit_error_not_distinguished 1 DeviceType.kCPU
      (fun _ s => (UcsStatusPtr.statusErr 3, s)) initNative 3 rfl).2 initNative⟩

/-- C1 counterexample: recv_with_tag posts its receive with a zero tag
mask (the literal 0 at line 137), so the receive is a wildcard: a receive
submitted for tag 5 is completed by an in-flight send carrying tag 6, and
the tag-6 send's bytes are delivered into it — refuting that the receive
matches only a send carrying the same tag value. -/
theorem recv_wildcard_counterexample :
    (5 : Nat) ≠ 6 ∧
    (recv_with_tag 1 5 DeviceType.kCPU
        (send_with_tag [9] 1 6 DeviceType.kCPU initNative).2.1).1.is_completed
      (recv_with_tag 1 5 DeviceType.kCPU
        (send_with_tag [9] 1 6 DeviceType.kCPU initNative).2.1).2.1 = true ∧
    (recv_with_tag 1 5 DeviceType.kCPU
        (send_with_tag [9] 1 6 DeviceType.kCPU initNative).2.1).2.1.delivered 1 =
      some [9] :=
  ⟨by decide, rfl, rfl⟩

/-- C1 (amended): a receive submitted on the worker for tag T paired with
a send of matching size submitted on an endpoint to that worker: both
Requests read complete after any number of further progress calls and the
bytes delivered into the receive equal the sent bytes — when the send
carries the same tag T, as the original claim states, but equally when it
carries any other tag Ts, because the zero tag mask passed at line 137
makes the posted receive a wildcard; matching is not restricted to the
receive's tag value. -/
theorem tag_wildcard_round_trip (T Ts n : Nat) (data : List Nat)
    (d : DeviceType) (_hlen : data.length = n) :
    ∀ k : Nat,
      (recv_with_tag n T d initNative).1.is_completed
        (progressN k
          (send_with_tag data n Ts d (recv_with_tag n T d initNative).2.1).2.1) =
        true ∧
      (send_with_tag data n Ts d (recv_with_tag n T d initNative).2.1).1.is_completed
        (progressN k
          (send_with_tag data n Ts d (recv_with_tag n T d initNative).2.1).2.1) =
        true ∧
      (progressN k
        (send_with_tag data n Ts d (recv_with_tag n T d initNative).2.1).2.1).delivered
          0 = some data := by
  intro k
  have hq : (send_with_tag data n Ts d
      (recv_with_tag n T d initNative).2.1).2.1.recvQ = [] := by
    simp [recv_with_tag, send_with_tag, submit_p2p_request, ucp_tag_recv_nbx,
      ucp_tag_send_nbx, build_params, ucsPtrStatusIsOk, progress, progressGo,
      takeSend, initNative, contextParams, Nat.and_zero]
  rw [progressN_fix _ (progress_recvQ_nil _ hq) k]
  refine ⟨?_, ?_, ?_⟩ <;>
    simp [recv_with_tag, send_with_tag, submit_p2p_request, ucp_tag_recv_nbx,
      ucp_tag_send_nbx, build_params, ucsPtrStatusIsOk, progress, progressGo,
      takeSend, initNative, contextParams, setCompleted, completion_cb,
      UCPRequest.is_completed, Nat.and_zero]

/-- Witness for C1 at the claim's same-tag case: tag 7 on both sides and
a two-byte payload. -/
theorem tag_wildcard_round_trip_witness :
    ([9, 8] : List Nat).length = 2 ∧
    (recv_with_tag 2 7 DeviceType.kCPU initNative).1.is_completed
      (progressN 1
        (send_with_tag [9, 8] 2 7 DeviceType.kCPU
          (recv_with_tag 2 7 DeviceType.kCPU initNative).2.1).2.1) = true ∧
    (progressN 1
      (send_with_tag [9, 8] 2 7 DeviceType.kCPU
        (recv_with_tag 2 7 DeviceType.kCPU initNative).2.1).2.1).delivered 0 =
      some [9, 8] :=
  ⟨rfl,
   (tag_wildcard_round_trip 7 7 2 [9, 8] DeviceType.kCPU rfl 1).1,
   (tag_wildcard_round_trip 7 7 2 [9, 8] DeviceType.kCPU rfl 1).2.2⟩

end UCXModel
